import Mathlib

/-!
Shallow embedding of the Configuration & Device-State Synchronization
subsystem of printnanny-rs, covering:

* `src/services/src/printnanny_api.rs` — the `ApiService` struct, its cached
  model loading (`load_device_json`, `load_license_json`, `load_models`),
  the device/license retrieval operations, the license check flow and the
  task / task-status creation calls.
* `src/cli/src/settings.rs` — the `SettingsCommand.handle` CLI dispatcher
  for the clone / get / set / show subcommands.

Remote HTTP endpoints, the filesystem and the clock are modelled as an
explicit environment; each async Rust method becomes a state-passing Lean
function returning its result together with the (possibly updated) service
value and world.  Methods taking `&self` in Rust are still given the
service in their return value so that frame properties are statable.
-/

namespace PrintNanny

/-- Task status values of `models::TaskStatusType`. -/
inductive TaskStatusType where
  | pending
  | started
  | failed
  | success
  | timeout
deriving DecidableEq, Repr

/-- A status is terminal when no further transition occurs (Failed, Success, Timeout). -/
def TaskStatusType.isTerminal : TaskStatusType → Bool
  | .failed => true
  | .success => true
  | .timeout => true
  | _ => false

/-- Task types of `models::TaskType`; only SystemCheck is used by this code. -/
inductive TaskType where
  | systemCheck
deriving DecidableEq, Repr

/-- `models::Task`: remote task with identifier and the last recorded status. -/
structure Task where
  id : Int
  last_status : Option TaskStatusType
deriving DecidableEq, Repr

/-- `models::Device`: only the integer identifier is consulted by this code. -/
structure Device where
  id : Int
deriving DecidableEq, Repr

/-- `models::License`: identifier, owning device, fingerprint and the last check task. -/
structure License where
  id : Int
  device : Int
  fingerprint : String
  last_check_task : Option Task
deriving DecidableEq, Repr

/-- `models::TaskRequest` as built inside `task_create`. -/
structure TaskRequest where
  active : Option Bool
  task_type : TaskType
  device : Int
deriving DecidableEq, Repr

/-- `models::TaskStatusRequest` as built inside `task_status_create`. -/
structure TaskStatusRequest where
  detail : Option String
  wiki_url : Option String
  task : Int
  status : TaskStatusType
deriving DecidableEq, Repr

/-- `models::PrintNannyApiConfig` as read from api_config.json. -/
structure PrintNannyApiConfig where
  base_path : String
  bearer_access_token : String
deriving DecidableEq, Repr

/-- The fields of `Configuration` this code sets; the remaining fields keep
`Configuration::default()` and are never read by the embedded code. -/
structure Configuration where
  base_path : String
  bearer_access_token : Option String
deriving DecidableEq, Repr

/-- Modelled from the spec: `crate::paths::PrintNannyPath` is not under src/;
§6 of the spec names the persisted files `device.json`, `license.json` and the
`api_config.json` cache, all resolved from the configured data directory. -/
structure PrintNannyPath where
  api_config_json : String
  device_json : String
  license_json : String
deriving DecidableEq, Repr

/-- Modelled from the spec: `PrintNannyPath::new(config)` derives the fixed
per-record file paths from the configured data directory. -/
def PrintNannyPath.new (config : String) : PrintNannyPath :=
  { api_config_json := config ++ "/api_config.json"
  , device_json := config ++ "/device.json"
  , license_json := config ++ "/license.json" }

/-- The `ApiService` struct of printnanny_api.rs. -/
structure ApiService where
  request_config : Configuration
  paths : PrintNannyPath
  config : String
  license : Option License
  device : Option Device
deriving DecidableEq, Repr

/-- The `ServiceError` enum, restricted to the variants reachable from the
embedded methods.  Remote endpoint errors and io errors carry an opaque
message. -/
inductive ServiceError where
  | devicesRetrieveError (e : String)
  | devicesActiveLicenseRetrieveError (e : String)
  | devicesRetrieveHostnameError (e : String)
  | taskCreateError (e : String)
  | taskStatusCreateError (e : String)
  | sysInfoError (e : String)
  | ioError (e : String)
  | signupIncomplete (cache : String)
deriving DecidableEq, Repr

/-- One observable remote API call made by the service, in call order. -/
inductive Event where
  | fetchHostname (hostname : String)
  | fetchDevice (deviceId : Int)
  | fetchActiveLicense (deviceId : Int)
  | createTask (deviceId : Int) (req : TaskRequest)
  | createTaskStatus (deviceId : Int) (taskId : Int) (req : TaskStatusRequest)
deriving DecidableEq, Repr

/-- Whether an event is a submitted status update with a terminal status. -/
def Event.isTerminalStatusUpdate : Event → Bool
  | .createTaskStatus _ _ req => req.status.isTerminal
  | _ => false

/-- Whether an event is a submitted status update (of any status). -/
def Event.isStatusUpdate : Event → Bool
  | .createTaskStatus _ _ _ => true
  | _ => false

/-- Mutable world: the two cache files, the api_config cache, whether disk
writes fail, and the trace of remote calls so far.  A file slot of `none`
stands for a missing or corrupt (undeserializable) file; both make
`read_model_json` return an error in the Rust code. -/
structure World where
  apiConfigFile : Option PrintNannyApiConfig
  deviceFile : Option Device
  licenseFile : Option License
  writeError : Option String
  trace : List Event
deriving DecidableEq, Repr

/-- Append a remote-call event to the trace. -/
def World.push (w : World) (e : Event) : World :=
  { w with trace := w.trace ++ [e] }

/-- Behaviour of the remote API facade and of `sys_info::hostname`; pure
response functions, fixed for the duration of one flow. -/
structure Remote where
  sysHostname : Except String String
  devices_retrieve_hostname : Configuration → String → Except String Device
  devices_retrieve : Configuration → Int → Except String Device
  devices_active_license_retrieve : Configuration → Int → Except String License
  devices_tasks_create : Configuration → Int → TaskRequest → Except String Task
  devices_tasks_status_create : Configuration → Int → Int → TaskStatusRequest → Except String Task

/-- `fn read_model_json::<Device>(&paths.device_json)` — reads the device
cache file; fails when the file is missing or corrupt. -/
def readDeviceJson (w : World) : Except String Device :=
  match w.deviceFile with
  | some d => .ok d
  | none => .error "read failure"

/-- `fn read_model_json::<License>(&paths.license_json)`. -/
def readLicenseJson (w : World) : Except String License :=
  match w.licenseFile with
  | some l => .ok l
  | none => .error "read failure"

/-- `fn save_model_json::<Device>` — overwrites the device cache file. -/
def saveDeviceJson (w : World) (d : Device) : Except String World :=
  match w.writeError with
  | none => .ok { w with deviceFile := some d }
  | some e => .error e

/-- `fn save_model_json::<License>` — overwrites the license cache file. -/
def saveLicenseJson (w : World) (l : License) : Except String World :=
  match w.writeError with
  | none => .ok { w with licenseFile := some l }
  | some e => .error e

/-- The uniform shape of an embedded `ApiService` method: result, the
service value after the call, and the world after the call. -/
abbrev MethodResult (α : Type) := Except ServiceError α × ApiService × World

/-- `ApiService::device_retrieve_hostname`: resolve the hostname via
`sys_info::hostname()?` then call `devices_retrieve_hostname`. -/
def ApiService.device_retrieve_hostname (r : Remote) (s : ApiService) (w : World) :
    MethodResult Device :=
  match r.sysHostname with
  | .error e => (.error (.sysInfoError e), s, w)
  | .ok hostname =>
    let w := w.push (.fetchHostname hostname)
    match r.devices_retrieve_hostname s.request_config hostname with
    | .ok res => (.ok res, s, w)
    | .error e => (.error (.devicesRetrieveHostnameError e), s, w)

/-- `ApiService::device_retrieve`: requires the in-memory device slot; fails
with SignupIncomplete naming the device cache path when it is empty. -/
def ApiService.device_retrieve (r : Remote) (s : ApiService) (w : World) :
    MethodResult Device :=
  match s.device with
  | some device =>
    let w := w.push (.fetchDevice device.id)
    match r.devices_retrieve s.request_config device.id with
    | .ok res => (.ok res, s, w)
    | .error e => (.error (.devicesRetrieveError e), s, w)
  | none => (.error (.signupIncomplete s.paths.device_json), s, w)

/-- `ApiService::license_retrieve_active`: requires the in-memory device
slot; fails with SignupIncomplete naming the device cache path when empty. -/
def ApiService.license_retrieve_active (r : Remote) (s : ApiService) (w : World) :
    MethodResult License :=
  match s.device with
  | some device =>
    let w := w.push (.fetchActiveLicense device.id)
    match r.devices_active_license_retrieve s.request_config device.id with
    | .ok res => (.ok res, s, w)
    | .error e => (.error (.devicesActiveLicenseRetrieveError e), s, w)
  | none => (.error (.signupIncomplete s.paths.device_json), s, w)

/-- `ApiService::load_device_json`: return the on-disk cache when it reads,
otherwise hydrate from `device_retrieve_hostname` and persist the result. -/
def ApiService.load_device_json (r : Remote) (s : ApiService) (w : World) :
    MethodResult Device :=
  match readDeviceJson w with
  | .ok device => (.ok device, s, w)
  | .error _e =>
    match s.device_retrieve_hostname r w with
    | (.ok device, s, w) =>
      match saveDeviceJson w device with
      | .ok w => (.ok device, s, w)
      | .error e => (.error (.ioError e), s, w)
    | (.error e, s, w) => (.error e, s, w)

/-- `ApiService::load_license_json`: return the on-disk cache when it reads,
otherwise hydrate from `license_retrieve_active` and persist the result. -/
def ApiService.load_license_json (r : Remote) (s : ApiService) (w : World) :
    MethodResult License :=
  match readLicenseJson w with
  | .ok license => (.ok license, s, w)
  | .error _e =>
    match s.license_retrieve_active r w with
    | (.ok license, s, w) =>
      match saveLicenseJson w license with
      | .ok w => (.ok license, s, w)
      | .error e => (.error (.ioError e), s, w)
    | (.error e, s, w) => (.error e, s, w)

/-- `ApiService::load_models`: load each cached record, downgrading a
failure to an empty optional slot; always returns Ok. -/
def ApiService.load_models (r : Remote) (s : ApiService) (w : World) :
    MethodResult Unit :=
  let (dres, s, w) := s.load_device_json r w
  let s :=
    match dres with
    | .ok v => { s with device := some v }
    | .error _e => { s with device := none }
  let (lres, s, w) := s.load_license_json r w
  let s :=
    match lres with
    | .ok v => { s with license := some v }
    | .error _e => { s with license := none }
  (.ok (), s, w)

/-- `ApiService::new`: build the request configuration from the cached
api_config.json when it reads, otherwise an anonymous configuration with the
given base url, then populate the model slots via `load_models`. -/
def ApiService.new (r : Remote) (config : String) (base_url : String) (w : World) :
    Except ServiceError ApiService × World :=
  let paths := PrintNannyPath.new config
  let request_config :=
    match w.apiConfigFile with
    | some api_config =>
      { base_path := api_config.base_path
      , bearer_access_token := some api_config.bearer_access_token }
    | none =>
      { base_path := base_url, bearer_access_token := none }
  let s : ApiService :=
    { request_config := request_config
    , paths := paths
    , config := config
    , device := none
    , license := none }
  match s.load_models r w with
  | (.ok _, s, w) => (.ok s, w)
  | (.error e, _, w) => (.error e, w)

/-- `ApiService::task_status_create`: build a TaskStatusRequest from the
arguments in declaration order and submit it. -/
def ApiService.task_status_create (r : Remote) (s : ApiService) (w : World)
    (task_id : Int) (device_id : Int) (status : TaskStatusType)
    (detail : Option String) (wiki_url : Option String) :
    MethodResult Task :=
  let request : TaskStatusRequest :=
    { detail := detail, wiki_url := wiki_url, task := task_id, status := status }
  let w := w.push (.createTaskStatus device_id task_id request)
  match r.devices_tasks_status_create s.request_config device_id task_id request with
  | .ok res => (.ok res, s, w)
  | .error e => (.error (.taskStatusCreateError e), s, w)

/-- `ApiService::task_create`: create a task for the in-memory device and,
when an initial status is given, immediately submit a status update.  The
source passes `wiki_url` and `detail` positionally into the `detail` and
`wiki_url` parameters of `task_status_create`, in that order. -/
def ApiService.task_create (r : Remote) (s : ApiService) (w : World)
    (task_type : TaskType) (status : Option TaskStatusType)
    (detail : Option String) (wiki_url : Option String) :
    MethodResult Task :=
  match s.device with
  | some device =>
    let request : TaskRequest :=
      { active := some true, task_type := task_type, device := device.id }
    let w := w.push (.createTask device.id request)
    match r.devices_tasks_create s.request_config device.id request with
    | .ok task =>
      match status with
      | some st => s.task_status_create r w task.id device.id st wiki_url detail
      | none => (.ok task, s, w)
    | .error e => (.error (.taskCreateError e), s, w)
  | none => (.error (.signupIncomplete s.paths.device_json), s, w)

/-- The active `ApiService::license_check` (printnanny_api.rs lines
228-235): create a SystemCheck task in Started state, load the cached
license, retrieve the active license, and return the active license. -/
def ApiService.license_check (r : Remote) (s : ApiService) (w : World) :
    MethodResult License :=
  match s.task_create r w .systemCheck (some .started) none none with
  | (.ok _task, s, w) =>
    match s.load_license_json r w with
    | (.ok _license, s, w) =>
      match s.license_retrieve_active r w with
      | (.ok active_license, s, w) => (.ok active_license, s, w)
      | (.error e, s, w) => (.error e, s, w)
    | (.error e, s, w) => (.error e, s, w)
  | (.error e, s, w) => (.error e, s, w)

/-! ## CLI settings command (src/cli/src/settings.rs) -/

/-- `printnanny_settings::SettingsFormat` as selectable on the CLI. -/
inductive SettingsFormat where
  | json
  | toml
  | ini
  | yaml
deriving DecidableEq, Repr

/-- Display rendering of a format, as interpolated into the
`unimplemented!` message of the show branch. -/
def SettingsFormat.display : SettingsFormat → String
  | .json => "json"
  | .toml => "toml"
  | .ini => "ini"
  | .yaml => "yaml"

/-- Modelled from the spec: `printnanny_settings::error::PrintNannySettingsError`
is not under src/; §7 of the spec names KeyNotFound for point lookup misses,
with the remaining variants collapsed into an opaque message. -/
inductive PrintNannySettingsError where
  | keyNotFound (key : String)
  | other (msg : String)
deriving DecidableEq, Repr

/-- Modelled from the spec: `printnanny_settings::printnanny::PrintNannySettings`
is not under src/ and is opaque to the CLI handler. -/
structure PrintNannySettings where
  token : String
deriving DecidableEq, Repr

/-- Modelled from the spec: a figment configuration value returned by
`PrintNannySettings::find_value`, opaque to the CLI handler. -/
structure ConfigValue where
  token : String
deriving DecidableEq, Repr

/-- Modelled from the spec: a figment provider stack, opaque to the CLI
handler. -/
structure Figment where
  token : String
deriving DecidableEq, Repr

/-- Behaviour of the external collaborators the CLI handler calls
(`printnanny_settings`, serde_json, toml, the clock); pure response
functions fixed for one invocation. -/
structure CliEnv where
  settings_new : Except PrintNannySettingsError PrintNannySettings
  init_git_repo : String → PrintNannySettings → Except PrintNannySettingsError Unit
  find_value : String → Except PrintNannySettingsError ConfigValue
  json_vec_value : ConfigValue → Except PrintNannySettingsError String
  json_vec_settings : PrintNannySettings → Except PrintNannySettingsError String
  toml_vec_value : ConfigValue → Except PrintNannySettingsError String
  toml_vec_settings : PrintNannySettings → Except PrintNannySettingsError String
  figment : Except PrintNannySettingsError Figment
  merge_serialized : Figment → String → String → Figment
  extract : Figment → Except PrintNannySettingsError PrintNannySettings
  to_toml_string : PrintNannySettings → Except PrintNannySettingsError String
  save_and_commit : String → Option String → Except PrintNannySettingsError Unit
  now : String

/-- How one `SettingsCommand::handle` invocation terminates: normal return,
an error surfaced through `?`, or a Rust panic (`todo!` / `unimplemented!`). -/
inductive CliOutcome where
  | ok
  | error (e : PrintNannySettingsError)
  | panicked (msg : String)
deriving DecidableEq, Repr

/-- Result of one invocation: outcome, the byte buffers written to standard
output via `write_all` (in order), and the `save_and_commit` calls made
(content, commit message). -/
abbrev CliResult := CliOutcome × List String × List (String × Option String)

/-- The parsed subcommand of `settings`, with the clap-level arguments. -/
inductive SettingsSubcommand where
  | clone (dir : String)
  | get (key : Option String) (format : SettingsFormat)
  | set (key : String) (value : String)
  | show (format : SettingsFormat)
deriving DecidableEq, Repr

namespace SettingsCommand

/-- `SettingsCommand::handle` from src/cli/src/settings.rs: resolve the
settings once up front, then dispatch on the subcommand.  The get/show
serializations are fully materialized before anything is written to
standard output; ini/yaml hit `todo!()` (get) or `unimplemented!` (show). -/
def handle (env : CliEnv) (cmd : SettingsSubcommand) : CliResult :=
  match env.settings_new with
  | .error e => (.error e, [], [])
  | .ok config =>
    match cmd with
    | .clone dir =>
      match env.settings_new with
      | .error e => (.error e, [], [])
      | .ok settings =>
        match env.init_git_repo dir settings with
        | .ok _ => (.ok, [], [])
        | .error e => (.error e, [], [])
    | .get key f =>
      match f with
      | .ini => (.panicked "not yet implemented", [], [])
      | .yaml => (.panicked "not yet implemented", [], [])
      | .json =>
        match key with
        | some k =>
          match env.find_value k with
          | .error e => (.error e, [], [])
          | .ok data =>
            match env.json_vec_value data with
            | .error e => (.error e, [], [])
            | .ok v => (.ok, [v], [])
        | none =>
          match env.settings_new with
          | .error e => (.error e, [], [])
          | .ok data =>
            match env.json_vec_settings data with
            | .error e => (.error e, [], [])
            | .ok v => (.ok, [v], [])
      | .toml =>
        match key with
        | some k =>
          match env.find_value k with
          | .error e => (.error e, [], [])
          | .ok data =>
            match env.toml_vec_value data with
            | .error e => (.error e, [], [])
            | .ok v => (.ok, [v], [])
        | none =>
          match env.settings_new with
          | .error e => (.error e, [], [])
          | .ok data =>
            match env.toml_vec_settings data with
            | .error e => (.error e, [], [])
            | .ok v => (.ok, [v], [])
    | .set key value =>
      match env.figment with
      | .error e => (.error e, [], [])
      | .ok figment =>
        let figment := env.merge_serialized figment key value
        match env.extract figment with
        | .error e => (.error e, [], [])
        | .ok config =>
          match env.to_toml_string config with
          | .error e => (.error e, [], [])
          | .ok content =>
            let msg := "PrintNannySettings." ++ key ++ " updated at " ++ env.now
            match env.save_and_commit content (some msg) with
            | .ok _ => (.ok, [], [(content, some msg)])
            | .error e => (.error e, [], [(content, some msg)])
    | .show f =>
      match f with
      | .json =>
        match env.json_vec_settings config with
        | .error e => (.error e, [], [])
        | .ok v => (.ok, [v], [])
      | .toml =>
        match env.toml_vec_settings config with
        | .error e => (.error e, [], [])
        | .ok v => (.ok, [v], [])
      | .ini =>
        (.panicked ("not implemented: show command is not implemented for format: "
          ++ SettingsFormat.display .ini), [], [])
      | .yaml =>
        (.panicked ("not implemented: show command is not implemented for format: "
          ++ SettingsFormat.display .yaml), [], [])

end SettingsCommand

/-! ## Concrete fixtures used to evaluate the embedded code -/

/-- A signed-up device with identifier 1. -/
def sampleDevice : Device := { id := 1 }

/-- A cached license with fingerprint "abc". -/
def cachedLicense : License :=
  { id := 1, device := 1, fingerprint := "abc", last_check_task := none }

/-- A remote active license with a different fingerprint "xyz". -/
def remoteLicenseMismatch : License :=
  { id := 1, device := 1, fingerprint := "xyz"
  , last_check_task := some { id := 9, last_status := some .started } }

/-- A remote active license matching the cache, whose last check task has
last recorded status Started. -/
def activeTaskStartedLicense : License :=
  { id := 1, device := 1, fingerprint := "abc"
  , last_check_task := some { id := 9, last_status := some .started } }

/-- A request configuration with a bearer token. -/
def sampleConfig : Configuration :=
  { base_path := "https://print-nanny.com", bearer_access_token := some "token0" }

/-- Paths under the default data directory. -/
def samplePaths : PrintNannyPath := PrintNannyPath.new "/opt/printnanny/data"

/-- A fully populated service: device and license slots filled. -/
def sampleService : ApiService :=
  { request_config := sampleConfig, paths := samplePaths
  , config := "/opt/printnanny/data"
  , license := some cachedLicense, device := some sampleDevice }

/-- A service whose device slot is empty. -/
def emptyDeviceService : ApiService :=
  { request_config := sampleConfig, paths := samplePaths
  , config := "/opt/printnanny/data"
  , license := none, device := none }

/-- The task returned by the remote task-creation endpoint. -/
def sampleTask : Task := { id := 7, last_status := some .started }

/-- Remote returning the mismatched active license. -/
def mismatchRemote : Remote :=
  { sysHostname := .ok "printnanny-host"
  , devices_retrieve_hostname := fun _ _ => .ok sampleDevice
  , devices_retrieve := fun _ _ => .ok sampleDevice
  , devices_active_license_retrieve := fun _ _ => .ok remoteLicenseMismatch
  , devices_tasks_create := fun _ _ _ => .ok sampleTask
  , devices_tasks_status_create := fun _ _ _ _ => .ok sampleTask }

/-- Remote returning the matching active license whose last check task is
already in Started state. -/
def startedRemote : Remote :=
  { sysHostname := .ok "printnanny-host"
  , devices_retrieve_hostname := fun _ _ => .ok sampleDevice
  , devices_retrieve := fun _ _ => .ok sampleDevice
  , devices_active_license_retrieve := fun _ _ => .ok activeTaskStartedLicense
  , devices_tasks_create := fun _ _ _ => .ok sampleTask
  , devices_tasks_status_create := fun _ _ _ _ => .ok sampleTask }

/-- Remote whose hostname lookup fails, so device hydration fails. -/
def deadRemote : Remote :=
  { sysHostname := .error "hostname failure"
  , devices_retrieve_hostname := fun _ _ => .error "unreachable"
  , devices_retrieve := fun _ _ => .error "unreachable"
  , devices_active_license_retrieve := fun _ _ => .error "unreachable"
  , devices_tasks_create := fun _ _ _ => .error "unreachable"
  , devices_tasks_status_create := fun _ _ _ _ => .error "unreachable" }

/-- World with both cache files present and readable. -/
def startWorld : World :=
  { apiConfigFile := none, deviceFile := some sampleDevice
  , licenseFile := some cachedLicense, writeError := none, trace := [] }

/-- World with no readable cache files at all. -/
def emptyDiskWorld : World :=
  { apiConfigFile := none, deviceFile := none
  , licenseFile := none, writeError := none, trace := [] }

/-- The service value load_models builds after the device stage: the device
slot holds the loaded device on success and is empty on failure. -/
def serviceAfterDeviceLoad (r : Remote) (s : ApiService) (w : World) : ApiService :=
  { (s.load_device_json r w).2.1 with device := ((s.load_device_json r w).1).toOption }

/-- The world after the device stage of load_models. -/
def worldAfterDeviceLoad (r : Remote) (s : ApiService) (w : World) : World :=
  (s.load_device_json r w).2.2

/-! ## Sample CLI environment -/

/-- An opaque settings value. -/
def sampleSettings : PrintNannySettings := { token := "settings0" }

/-- A CLI environment whose point lookups always miss (KeyNotFound) and
whose serializers and version-control operations succeed. -/
def sampleEnv : CliEnv :=
  { settings_new := .ok sampleSettings
  , init_git_repo := fun _ _ => .ok ()
  , find_value := fun k => .error (.keyNotFound k)
  , json_vec_value := fun v => .ok ("json:" ++ v.token)
  , json_vec_settings := fun s => .ok ("json:" ++ s.token)
  , toml_vec_value := fun v => .ok ("toml:" ++ v.token)
  , toml_vec_settings := fun s => .ok ("toml:" ++ s.token)
  , figment := .ok { token := "figment0" }
  , merge_serialized := fun f k v => { token := f.token ++ "|" ++ k ++ "=" ++ v }
  , extract := fun f => .ok { token := f.token }
  , to_toml_string := fun s => .ok ("toml:" ++ s.token)
  , save_and_commit := fun _ _ => .ok ()
  , now := "SystemTime(t0)" }

/-- The service value `ApiService::new` builds before calling load_models:
anonymous configuration when api_config.json is unreadable, both model
slots empty. -/
def initService (config base_url : String) (w : World) : ApiService :=
  { request_config :=
      match w.apiConfigFile with
      | some api_config =>
        { base_path := api_config.base_path
        , bearer_access_token := some api_config.bearer_access_token }
      | none =>
        { base_path := base_url, bearer_access_token := none }
  , paths := PrintNannyPath.new config
  , config := config
  , device := none
  , license := none }

/-! ## Frame lemmas: methods taking the service immutably return it unchanged -/

theorem device_retrieve_hostname_service_eq (r : Remote) (s : ApiService) (w : World) :
    (s.device_retrieve_hostname r w).2.1 = s := by
  unfold ApiService.device_retrieve_hostname
  cases r.sysHostname with
  | error e => rfl
  | ok h =>
    dsimp only
    cases r.devices_retrieve_hostname s.request_config h with
    | ok d => rfl
    | error e => rfl

theorem device_retrieve_service_eq (r : Remote) (s : ApiService) (w : World) :
    (s.device_retrieve r w).2.1 = s := by
  unfold ApiService.device_retrieve
  cases s.device with
  | none => rfl
  | some d =>
    dsimp only
    cases r.devices_retrieve s.request_config d.id with
    | ok d2 => rfl
    | error e => rfl

theorem license_retrieve_active_service_eq (r : Remote) (s : ApiService) (w : World) :
    (s.license_retrieve_active r w).2.1 = s := by
  unfold ApiService.license_retrieve_active
  cases s.device with
  | none => rfl
  | some d =>
    dsimp only
    cases r.devices_active_license_retrieve s.request_config d.id with
    | ok l => rfl
    | error e => rfl

theorem load_device_json_service_eq (r : Remote) (s : ApiService) (w : World) :
    (s.load_device_json r w).2.1 = s := by
  unfold ApiService.load_device_json
  cases readDeviceJson w with
  | ok d => rfl
  | error e =>
    dsimp only
    have h1 := device_retrieve_hostname_service_eq r s w
    cases hd : s.device_retrieve_hostname r w with
    | mk dres rest =>
      obtain ⟨s1, w1⟩ := rest
      rw [hd] at h1
      dsimp only at h1
      cases dres with
      | error e2 => exact h1
      | ok d =>
        dsimp only
        cases saveDeviceJson w1 d with
        | ok w2 => exact h1
        | error e3 => exact h1

theorem load_license_json_service_eq (r : Remote) (s : ApiService) (w : World) :
    (s.load_license_json r w).2.1 = s := by
  unfold ApiService.load_license_json
  cases readLicenseJson w with
  | ok l => rfl
  | error e =>
    dsimp only
    have h1 := license_retrieve_active_service_eq r s w
    cases hl : s.license_retrieve_active r w with
    | mk lres rest =>
      obtain ⟨s1, w1⟩ := rest
      rw [hl] at h1
      dsimp only at h1
      cases lres with
      | error e2 => exact h1
      | ok l =>
        dsimp only
        cases saveLicenseJson w1 l with
        | ok w2 => exact h1
        | error e3 => exact h1

theorem task_status_create_service_eq (r : Remote) (s : ApiService) (w : World)
    (task_id device_id : Int) (status : TaskStatusType)
    (detail wiki_url : Option String) :
    (s.task_status_create r w task_id device_id status detail wiki_url).2.1 = s := by
  unfold ApiService.task_status_create
  dsimp only
  cases r.devices_tasks_status_create s.request_config device_id task_id
      { detail := detail, wiki_url := wiki_url, task := task_id, status := status } with
  | ok t => rfl
  | error e => rfl

theorem task_create_service_eq (r : Remote) (s : ApiService) (w : World)
    (task_type : TaskType) (status : Option TaskStatusType)
    (detail wiki_url : Option String) :
    (s.task_create r w task_type status detail wiki_url).2.1 = s := by
  unfold ApiService.task_create
  cases s.device with
  | none => rfl
  | some device =>
    dsimp only
    cases r.devices_tasks_create s.request_config device.id
        { active := some true, task_type := task_type, device := device.id } with
    | error e => rfl
    | ok task =>
      dsimp only
      cases status with
      | none => rfl
      | some st => exact task_status_create_service_eq ..

theorem license_check_service_eq (r : Remote) (s : ApiService) (w : World) :
    (s.license_check r w).2.1 = s := by
  unfold ApiService.license_check
  have h1 := task_create_service_eq r s w .systemCheck (some .started) none none
  cases ht : s.task_create r w .systemCheck (some .started) none none with
  | mk tres rest =>
    obtain ⟨s1, w1⟩ := rest
    rw [ht] at h1
    dsimp only at h1
    cases tres with
    | error e => exact h1
    | ok t =>
      dsimp only
      have h2 := load_license_json_service_eq r s1 w1
      cases hl : s1.load_license_json r w1 with
      | mk lres rest2 =>
        obtain ⟨s2, w2⟩ := rest2
        rw [hl] at h2
        dsimp only at h2
        cases lres with
        | error e2 => exact h2.trans h1
        | ok l =>
          dsimp only
          have h3 := license_retrieve_active_service_eq r s2 w2
          cases ha : s2.license_retrieve_active r w2 with
          | mk ares rest3 =>
            obtain ⟨s3, w3⟩ := rest3
            rw [ha] at h3
            dsimp only at h3
            cases ares with
            | error e3 => exact h3.trans (h2.trans h1)
            | ok a => exact h3.trans (h2.trans h1)

/-! ## Decomposition of load_models and ApiService.new -/

theorem load_models_eq (r : Remote) (s : ApiService) (w : World) :
    s.load_models r w =
      (.ok (),
       { serviceAfterDeviceLoad r s w with
           license :=
             (((serviceAfterDeviceLoad r s w).load_license_json r
                 (worldAfterDeviceLoad r s w)).1).toOption },
       ((serviceAfterDeviceLoad r s w).load_license_json r
           (worldAfterDeviceLoad r s w)).2.2) := by
  unfold ApiService.load_models serviceAfterDeviceLoad worldAfterDeviceLoad
  cases hd : s.load_device_json r w with
  | mk dres rest =>
    obtain ⟨s1, w1⟩ := rest
    dsimp only
    cases dres with
    | ok v =>
      dsimp only [Except.toOption]
      have h2 := load_license_json_service_eq r { s1 with device := some v } w1
      cases hl : ApiService.load_license_json r { s1 with device := some v } w1 with
      | mk lres rest2 =>
        obtain ⟨s2, w2⟩ := rest2
        rw [hl] at h2
        dsimp only at h2
        rw [h2]
        dsimp only
        cases lres with
        | ok lv => rfl
        | error e => rfl
    | error e =>
      dsimp only [Except.toOption]
      have h2 := load_license_json_service_eq r { s1 with device := none } w1
      cases hl : ApiService.load_license_json r { s1 with device := none } w1 with
      | mk lres rest2 =>
        obtain ⟨s2, w2⟩ := rest2
        rw [hl] at h2
        dsimp only at h2
        rw [h2]
        dsimp only
        cases lres with
        | ok lv => rfl
        | error e2 => rfl

theorem load_models_fst (r : Remote) (s : ApiService) (w : World) :
    (s.load_models r w).1 = .ok () := by
  rw [load_models_eq]

theorem load_models_device_slot (r : Remote) (s : ApiService) (w : World) :
    ((s.load_models r w).2.1).device = ((s.load_device_json r w).1).toOption := by
  rw [load_models_eq]
  rfl

theorem load_models_license_slot (r : Remote) (s : ApiService) (w : World) :
    ((s.load_models r w).2.1).license =
      (((serviceAfterDeviceLoad r s w).load_license_json r
          (worldAfterDeviceLoad r s w)).1).toOption := by
  rw [load_models_eq]

theorem load_models_request_config (r : Remote) (s : ApiService) (w : World) :
    ((s.load_models r w).2.1).request_config = s.request_config := by
  rw [load_models_eq]
  show ((s.load_device_json r w).2.1).request_config = s.request_config
  rw [load_device_json_service_eq]

theorem load_models_paths (r : Remote) (s : ApiService) (w : World) :
    ((s.load_models r w).2.1).paths = s.paths := by
  rw [load_models_eq]
  show ((s.load_device_json r w).2.1).paths = s.paths
  rw [load_device_json_service_eq]

theorem load_models_config (r : Remote) (s : ApiService) (w : World) :
    ((s.load_models r w).2.1).config = s.config := by
  rw [load_models_eq]
  show ((s.load_device_json r w).2.1).config = s.config
  rw [load_device_json_service_eq]

theorem new_eq (r : Remote) (config base_url : String) (w : World) :
    ApiService.new r config base_url w =
      (.ok ((ApiService.load_models r (initService config base_url w) w).2.1),
       (ApiService.load_models r (initService config base_url w) w).2.2) := by
  unfold ApiService.new initService
  dsimp only
  rw [load_models_eq]

/-- An invocation surfacing an error did not return normally. -/
theorem cliOutcome_error_ne_ok (e : PrintNannySettingsError) :
    CliOutcome.error e ≠ CliOutcome.ok := fun h => nomatch h

/-- An invocation that panicked did not return normally. -/
theorem cliOutcome_panicked_ne_ok (msg : String) :
    CliOutcome.panicked msg ≠ CliOutcome.ok := fun h => nomatch h

/-! ## Claim theorems -/

/-- C1: the claim says the license comparison ends in exactly one terminal
status update (Failed on identifier/fingerprint mismatch, Success on match).
Evaluating the active `license_check` on a cached fingerprint "abc" against
a remote active fingerprint "xyz" shows the code never compares the
licenses and never submits a terminal update: the only status update in the
whole flow is the initial Started one, and the mismatched active license is
returned as a success. -/
theorem license_check_emits_no_terminal_update :
    cachedLicense.fingerprint ≠ remoteLicenseMismatch.fingerprint ∧
    (ApiService.license_check mismatchRemote sampleService startWorld).1
      = .ok remoteLicenseMismatch ∧
    ((ApiService.license_check mismatchRemote sampleService startWorld).2.2.trace.filter
        Event.isTerminalStatusUpdate) = [] ∧
    ((ApiService.license_check mismatchRemote sampleService startWorld).2.2.trace.filter
        Event.isStatusUpdate) =
      [.createTaskStatus sampleDevice.id sampleTask.id
        { detail := none, wiki_url := none, task := sampleTask.id, status := .started }] :=
  ⟨by decide, rfl, rfl, rfl⟩

/-- C2: the claim says a license-check flow submits no new status update
when the remote task state is already Started, and otherwise one Started
followed by exactly one terminal update.  Evaluating the active
`license_check` against a remote whose active license carries a last check
task in Started state shows the code ignores the recorded task state: it
still submits exactly one fresh Started update and no terminal update ever
follows. -/
theorem license_check_ignores_started_task_state :
    (activeTaskStartedLicense.last_check_task.map Task.last_status)
      = some (some .started) ∧
    ((ApiService.license_check startedRemote sampleService startWorld).2.2.trace.filter
        Event.isStatusUpdate) =
      [.createTaskStatus sampleDevice.id sampleTask.id
        { detail := none, wiki_url := none, task := sampleTask.id, status := .started }] ∧
    ((ApiService.license_check startedRemote sampleService startWorld).2.2.trace.filter
        Event.isTerminalStatusUpdate) = [] ∧
    (ApiService.license_check startedRemote sampleService startWorld).1
      = .ok activeTaskStartedLicense :=
  ⟨rfl, rfl, rfl, rfl⟩

/-- C5: the claim says the status update submitted by `task_create` carries
the task identifier, device identifier and status, with the detail field
equal to the detail argument and the wiki_url field equal to the help-link
argument.  The submitted request does carry the identifiers and status, but
the source passes the arguments into `task_status_create` swapped: the
submitted detail field holds the wiki_url argument and vice versa. -/
theorem task_create_swaps_detail_and_wiki_url :
    ∀ detail wiki_url : Option String,
      (ApiService.task_create mismatchRemote sampleService startWorld
          .systemCheck (some .started) detail wiki_url).2.2.trace =
        [ .createTask sampleDevice.id
            { active := some true, task_type := .systemCheck, device := sampleDevice.id }
        , .createTaskStatus sampleDevice.id sampleTask.id
            { detail := wiki_url, wiki_url := detail
            , task := sampleTask.id, status := .started } ] :=
  fun _ _ => rfl

/-- C3: for each cached record kind, a readable on-disk file is returned as
is with no remote call and no write, while a read failure triggers the
kind-specific remote fetch, an overwrite of the on-disk file with the
fetched record, and the fetched record as the result. -/
theorem load_cached_record_read_through :
    (∀ (r : Remote) (s : ApiService) (w : World) (d : Device),
        w.deviceFile = some d →
        s.load_device_json r w = (.ok d, s, w)) ∧
    (∀ (r : Remote) (s : ApiService) (w : World) (l : License),
        w.licenseFile = some l →
        s.load_license_json r w = (.ok l, s, w)) ∧
    (∀ (r : Remote) (s : ApiService) (w : World) (h : String) (d : Device),
        w.deviceFile = none →
        r.sysHostname = .ok h →
        r.devices_retrieve_hostname s.request_config h = .ok d →
        w.writeError = none →
        s.load_device_json r w =
          (.ok d, s,
           { w with deviceFile := some d
                  , trace := w.trace ++ [.fetchHostname h] })) ∧
    (∀ (r : Remote) (s : ApiService) (w : World) (dev : Device) (l : License),
        w.licenseFile = none →
        s.device = some dev →
        r.devices_active_license_retrieve s.request_config dev.id = .ok l →
        w.writeError = none →
        s.load_license_json r w =
          (.ok l, s,
           { w with licenseFile := some l
                  , trace := w.trace ++ [.fetchActiveLicense dev.id] })) := by
  refine ⟨?_, ?_, ?_, ?_⟩
  · intro r s w d h
    unfold ApiService.load_device_json readDeviceJson
    rw [h]
  · intro r s w l h
    unfold ApiService.load_license_json readLicenseJson
    rw [h]
  · intro r s w h d hnone hhost hfetch hwrite
    unfold ApiService.load_device_json readDeviceJson ApiService.device_retrieve_hostname
    rw [hnone]
    dsimp only
    rw [hhost]
    dsimp only
    rw [hfetch]
    dsimp only [saveDeviceJson, World.push]
    rw [hwrite]
  · intro r s w dev l hnone hdev hfetch hwrite
    unfold ApiService.load_license_json readLicenseJson ApiService.license_retrieve_active
    rw [hnone]
    dsimp only
    rw [hdev]
    dsimp only
    rw [hfetch]
    dsimp only [saveLicenseJson, World.push]
    rw [hwrite]

/-- Witness for C3 at concrete inputs: a readable cache is returned without
touching the world, and with both cache files unreadable the device record
is hydrated from the remote and written back to disk. -/
theorem load_cached_record_read_through_witness :
    ApiService.load_device_json mismatchRemote sampleService startWorld
      = (.ok sampleDevice, sampleService, startWorld) ∧
    ApiService.load_license_json mismatchRemote sampleService startWorld
      = (.ok cachedLicense, sampleService, startWorld) ∧
    ApiService.load_device_json mismatchRemote sampleService emptyDiskWorld
      = (.ok sampleDevice, sampleService,
         { emptyDiskWorld with
             deviceFile := some sampleDevice
           , trace := emptyDiskWorld.trace ++ [.fetchHostname "printnanny-host"] }) ∧
    ApiService.load_license_json mismatchRemote sampleService emptyDiskWorld
      = (.ok remoteLicenseMismatch, sampleService,
         { emptyDiskWorld with
             licenseFile := some remoteLicenseMismatch
           , trace := emptyDiskWorld.trace ++ [.fetchActiveLicense sampleDevice.id] }) :=
  ⟨load_cached_record_read_through.1 mismatchRemote sampleService startWorld sampleDevice rfl,
   load_cached_record_read_through.2.1 mismatchRemote sampleService startWorld cachedLicense rfl,
   load_cached_record_read_through.2.2.1 mismatchRemote sampleService emptyDiskWorld
     "printnanny-host" sampleDevice rfl rfl rfl rfl,
   load_cached_record_read_through.2.2.2 mismatchRemote sampleService emptyDiskWorld
     sampleDevice remoteLicenseMismatch rfl rfl rfl rfl⟩

/-- C4: a hydration failure during load_models leaves the corresponding
in-memory slot empty instead of propagating the error (load_models always
returns Ok), and the operations that need the device slot fail with
SignupIncomplete carrying the device cache path when the slot is empty. -/
theorem load_models_degrades_hydration_failures :
    (∀ (r : Remote) (s : ApiService) (w : World), (s.load_models r w).1 = .ok ()) ∧
    (∀ (r : Remote) (s : ApiService) (w : World),
        (s.load_device_json r w).1.isOk = false →
        ((s.load_models r w).2.1).device = none) ∧
    (∀ (r : Remote) (s : ApiService) (w : World),
        ((serviceAfterDeviceLoad r s w).load_license_json r
            (worldAfterDeviceLoad r s w)).1.isOk = false →
        ((s.load_models r w).2.1).license = none) ∧
    (∀ (r : Remote) (s : ApiService) (w : World), s.device = none →
        s.device_retrieve r w
          = (.error (.signupIncomplete s.paths.device_json), s, w)) ∧
    (∀ (r : Remote) (s : ApiService) (w : World), s.device = none →
        s.license_retrieve_active r w
          = (.error (.signupIncomplete s.paths.device_json), s, w)) ∧
    (∀ (r : Remote) (s : ApiService) (w : World) (tt : TaskType)
        (st : Option TaskStatusType) (dt u : Option String), s.device = none →
        s.task_create r w tt st dt u
          = (.error (.signupIncomplete s.paths.device_json), s, w)) := by
  refine ⟨load_models_fst, ?_, ?_, ?_, ?_, ?_⟩
  · intro r s w h
    rw [load_models_device_slot]
    cases hd : (s.load_device_json r w).1 with
    | error e => rfl
    | ok v => rw [hd] at h; exact Bool.noConfusion h
  · intro r s w h
    rw [load_models_license_slot]
    cases hl : ((serviceAfterDeviceLoad r s w).load_license_json r
        (worldAfterDeviceLoad r s w)).1 with
    | error e => rfl
    | ok v => rw [hl] at h; exact Bool.noConfusion h
  · intro r s w h
    unfold ApiService.device_retrieve
    rw [h]
  · intro r s w h
    unfold ApiService.license_retrieve_active
    rw [h]
  · intro r s w tt st dt u h
    unfold ApiService.task_create
    rw [h]

/-- Witness for C4 at concrete inputs: with no cache files and a dead
remote both slots end up empty while load_models still succeeds, and the
device-requiring operations fail with SignupIncomplete naming the device
cache path. -/
theorem load_models_degrades_hydration_failures_witness :
    (ApiService.load_models deadRemote sampleService emptyDiskWorld).1 = .ok () ∧
    ((ApiService.load_models deadRemote sampleService emptyDiskWorld).2.1).device = none ∧
    ((ApiService.load_models deadRemote sampleService emptyDiskWorld).2.1).license = none ∧
    ApiService.device_retrieve deadRemote emptyDeviceService startWorld
      = (.error (.signupIncomplete emptyDeviceService.paths.device_json),
         emptyDeviceService, startWorld) ∧
    ApiService.license_retrieve_active deadRemote emptyDeviceService startWorld
      = (.error (.signupIncomplete emptyDeviceService.paths.device_json),
         emptyDeviceService, startWorld) ∧
    ApiService.task_create deadRemote emptyDeviceService startWorld
        .systemCheck (some .started) none none
      = (.error (.signupIncomplete emptyDeviceService.paths.device_json),
         emptyDeviceService, startWorld) :=
  ⟨load_models_degrades_hydration_failures.1 deadRemote sampleService emptyDiskWorld,
   load_models_degrades_hydration_failures.2.1 deadRemote sampleService emptyDiskWorld rfl,
   load_models_degrades_hydration_failures.2.2.1 deadRemote sampleService emptyDiskWorld rfl,
   load_models_degrades_hydration_failures.2.2.2.1 deadRemote emptyDeviceService startWorld rfl,
   load_models_degrades_hydration_failures.2.2.2.2.1 deadRemote emptyDeviceService startWorld rfl,
   load_models_degrades_hydration_failures.2.2.2.2.2 deadRemote emptyDeviceService startWorld
     .systemCheck (some .started) none none rfl⟩

/-- C9: the cache loaders and every other method taking the service
immutably return the service with all fields unchanged — in particular the
in-memory device and license slots — and load_models, the only method that
assigns those two slots, leaves every other field of the service equal to
its value before the call. -/
theorem cached_loads_preserve_service :
    (∀ (r : Remote) (s : ApiService) (w : World), (s.load_device_json r w).2.1 = s) ∧
    (∀ (r : Remote) (s : ApiService) (w : World), (s.load_license_json r w).2.1 = s) ∧
    (∀ (r : Remote) (s : ApiService) (w : World), (s.device_retrieve r w).2.1 = s) ∧
    (∀ (r : Remote) (s : ApiService) (w : World), (s.device_retrieve_hostname r w).2.1 = s) ∧
    (∀ (r : Remote) (s : ApiService) (w : World), (s.license_retrieve_active r w).2.1 = s) ∧
    (∀ (r : Remote) (s : ApiService) (w : World) (t d : Int) (st : TaskStatusType)
        (dt u : Option String), (s.task_status_create r w t d st dt u).2.1 = s) ∧
    (∀ (r : Remote) (s : ApiService) (w : World) (tt : TaskType)
        (st : Option TaskStatusType) (dt u : Option String),
        (s.task_create r w tt st dt u).2.1 = s) ∧
    (∀ (r : Remote) (s : ApiService) (w : World), (s.license_check r w).2.1 = s) ∧
    (∀ (r : Remote) (s : ApiService) (w : World),
        ((s.load_models r w).2.1).request_config = s.request_config ∧
        ((s.load_models r w).2.1).paths = s.paths ∧
        ((s.load_models r w).2.1).config = s.config) :=
  ⟨load_device_json_service_eq, load_license_json_service_eq,
   device_retrieve_service_eq, device_retrieve_hostname_service_eq,
   license_retrieve_active_service_eq,
   fun r s w t d st dt u => task_status_create_service_eq r s w t d st dt u,
   fun r s w tt st dt u => task_create_service_eq r s w tt st dt u,
   license_check_service_eq,
   fun r s w =>
     ⟨load_models_request_config r s w, load_models_paths r s w,
      load_models_config r s w⟩⟩

/-- C10: ApiService construction never fails: a missing or unreadable
api_config.json yields an anonymous request configuration whose base path
is the base_url argument and which carries no bearer token, and load_models
always returns Ok, so missing or corrupt cache files and failed hydration
never abort construction. -/
theorem api_service_new_always_succeeds :
    (∀ (r : Remote) (config base_url : String) (w : World),
        ∃ s w2, ApiService.new r config base_url w = (.ok s, w2)) ∧
    (∀ (r : Remote) (config base_url : String) (w : World),
        w.apiConfigFile = none →
        ∃ s w2, ApiService.new r config base_url w = (.ok s, w2) ∧
          s.request_config.base_path = base_url ∧
          s.request_config.bearer_access_token = none) ∧
    (∀ (r : Remote) (s : ApiService) (w : World), (s.load_models r w).1 = .ok ()) := by
  refine ⟨?_, ?_, load_models_fst⟩
  · intro r config base_url w
    exact ⟨_, _, new_eq r config base_url w⟩
  · intro r config base_url w hw
    refine ⟨_, _, new_eq r config base_url w, ?_, ?_⟩
    · rw [load_models_request_config]
      unfold initService
      rw [hw]
    · rw [load_models_request_config]
      unfold initService
      rw [hw]

/-- Witness for C10 at concrete inputs: construction with no readable
api_config.json, no cache files and a dead remote still succeeds, with the
anonymous configuration pointing at the given base url. -/
theorem api_service_new_always_succeeds_witness :
    (∃ s w2, ApiService.new deadRemote "/opt/printnanny/data"
        "https://print-nanny.com" emptyDiskWorld = (.ok s, w2) ∧
      s.request_config.base_path = "https://print-nanny.com" ∧
      s.request_config.bearer_access_token = none) ∧
    (ApiService.load_models deadRemote sampleService emptyDiskWorld).1 = .ok () :=
  ⟨api_service_new_always_succeeds.2.1 deadRemote "/opt/printnanny/data"
      "https://print-nanny.com" emptyDiskWorld rfl,
   api_service_new_always_succeeds.2.2 deadRemote sampleService emptyDiskWorld⟩

/-- C6: every settings get or show invocation either writes the one
complete requested serialization to standard output and returns normally,
or terminates with an error or panic having written nothing; in particular
a key lookup miss surfaces KeyNotFound with no output. -/
theorem settings_get_show_all_or_nothing :
    (∀ (env : CliEnv) (key : Option String) (f : SettingsFormat),
        ((SettingsCommand.handle env (.get key f)).1 ≠ .ok ∧
         (SettingsCommand.handle env (.get key f)).2.1 = []) ∨
        ∃ v, SettingsCommand.handle env (.get key f) = (.ok, [v], [])) ∧
    (∀ (env : CliEnv) (f : SettingsFormat),
        ((SettingsCommand.handle env (.show f)).1 ≠ .ok ∧
         (SettingsCommand.handle env (.show f)).2.1 = []) ∨
        ∃ v, SettingsCommand.handle env (.show f) = (.ok, [v], [])) ∧
    (∀ (env : CliEnv) (k : String) (cfg : PrintNannySettings),
        env.settings_new = .ok cfg →
        env.find_value k = .error (.keyNotFound k) →
        SettingsCommand.handle env (.get (some k) .json)
          = (.error (.keyNotFound k), [], [])) := by
  refine ⟨?_, ?_, ?_⟩
  · intro env key f
    unfold SettingsCommand.handle
    cases env.settings_new with
    | error e => exact .inl ⟨cliOutcome_error_ne_ok e, rfl⟩
    | ok cfg =>
      dsimp only
      cases f with
      | ini => exact .inl ⟨cliOutcome_panicked_ne_ok _, rfl⟩
      | yaml => exact .inl ⟨cliOutcome_panicked_ne_ok _, rfl⟩
      | json =>
        cases key with
        | some k =>
          dsimp only
          cases env.find_value k with
          | error e => exact .inl ⟨cliOutcome_error_ne_ok e, rfl⟩
          | ok data =>
            dsimp only
            cases env.json_vec_value data with
            | error e => exact .inl ⟨cliOutcome_error_ne_ok e, rfl⟩
            | ok v => exact .inr ⟨v, rfl⟩
        | none =>
          dsimp only
          cases env.json_vec_settings cfg with
          | error e => exact .inl ⟨cliOutcome_error_ne_ok e, rfl⟩
          | ok v => exact .inr ⟨v, rfl⟩
      | toml =>
        cases key with
        | some k =>
          dsimp only
          cases env.find_value k with
          | error e => exact .inl ⟨cliOutcome_error_ne_ok e, rfl⟩
          | ok data =>
            dsimp only
            cases env.toml_vec_value data with
            | error e => exact .inl ⟨cliOutcome_error_ne_ok e, rfl⟩
            | ok v => exact .inr ⟨v, rfl⟩
        | none =>
          dsimp only
          cases env.toml_vec_settings cfg with
          | error e => exact .inl ⟨cliOutcome_error_ne_ok e, rfl⟩
          | ok v => exact .inr ⟨v, rfl⟩
  · intro env f
    unfold SettingsCommand.handle
    cases env.settings_new with
    | error e => exact .inl ⟨cliOutcome_error_ne_ok e, rfl⟩
    | ok cfg =>
      dsimp only
      cases f with
      | ini => exact .inl ⟨cliOutcome_panicked_ne_ok _, rfl⟩
      | yaml => exact .inl ⟨cliOutcome_panicked_ne_ok _, rfl⟩
      | json =>
        cases env.json_vec_settings cfg with
        | error e => exact .inl ⟨cliOutcome_error_ne_ok e, rfl⟩
        | ok v => exact .inr ⟨v, rfl⟩
      | toml =>
        cases env.toml_vec_settings cfg with
        | error e => exact .inl ⟨cliOutcome_error_ne_ok e, rfl⟩
        | ok v => exact .inr ⟨v, rfl⟩
  · intro env k cfg hnew hfind
    unfold SettingsCommand.handle
    rw [hnew]
    dsimp only
    rw [hfind]

/-- Witness for C6 at a concrete environment: the lookup of a nonexistent
key fails with KeyNotFound and writes nothing. -/
theorem settings_get_show_all_or_nothing_witness :
    SettingsCommand.handle sampleEnv (.get (some "nonexistent.key") .json)
      = (.error (.keyNotFound "nonexistent.key"), [], []) :=
  settings_get_show_all_or_nothing.2.2 sampleEnv "nonexistent.key" sampleSettings rfl rfl

/-- C7: requesting the ini or yaml output format on get or show never
returns normally and never writes to standard output — the get branch
panics via todo and the show branch via unimplemented once the settings
resolve — so neither format silently falls back to json or toml. -/
theorem settings_ini_yaml_fail_loudly :
    (∀ (env : CliEnv) (key : Option String) (f : SettingsFormat),
        f = .ini ∨ f = .yaml →
        (SettingsCommand.handle env (.get key f)).1 ≠ .ok ∧
        (SettingsCommand.handle env (.get key f)).2.1 = []) ∧
    (∀ (env : CliEnv) (f : SettingsFormat),
        f = .ini ∨ f = .yaml →
        (SettingsCommand.handle env (.show f)).1 ≠ .ok ∧
        (SettingsCommand.handle env (.show f)).2.1 = []) ∧
    (∀ (env : CliEnv) (key : Option String) (cfg : PrintNannySettings),
        env.settings_new = .ok cfg →
        SettingsCommand.handle env (.get key .ini)
          = (.panicked "not yet implemented", [], []) ∧
        SettingsCommand.handle env (.get key .yaml)
          = (.panicked "not yet implemented", [], []) ∧
        SettingsCommand.handle env (.show .ini)
          = (.panicked
              ("not implemented: show command is not implemented for format: ini"),
             [], []) ∧
        SettingsCommand.handle env (.show .yaml)
          = (.panicked
              ("not implemented: show command is not implemented for format: yaml"),
             [], [])) := by
  refine ⟨?_, ?_, ?_⟩
  · intro env key f hf
    unfold SettingsCommand.handle
    cases env.settings_new with
    | error e => exact ⟨cliOutcome_error_ne_ok e, rfl⟩
    | ok cfg =>
      dsimp only
      rcases hf with rfl | rfl
      · exact ⟨cliOutcome_panicked_ne_ok _, rfl⟩
      · exact ⟨cliOutcome_panicked_ne_ok _, rfl⟩
  · intro env f hf
    unfold SettingsCommand.handle
    cases env.settings_new with
    | error e => exact ⟨cliOutcome_error_ne_ok e, rfl⟩
    | ok cfg =>
      dsimp only
      rcases hf with rfl | rfl
      · exact ⟨cliOutcome_panicked_ne_ok _, rfl⟩
      · exact ⟨cliOutcome_panicked_ne_ok _, rfl⟩
  · intro env key cfg hnew
    unfold SettingsCommand.handle
    rw [hnew]
    exact ⟨rfl, rfl, rfl, rfl⟩

/-- Witness for C7 at a concrete environment: ini and yaml panic with
nothing written. -/
theorem settings_ini_yaml_fail_loudly_witness :
    SettingsCommand.handle sampleEnv (.get (some "k") .ini)
      = (.panicked "not yet implemented", [], []) ∧
    SettingsCommand.handle sampleEnv (.show .yaml)
      = (.panicked
          ("not implemented: show command is not implemented for format: yaml"),
         [], []) :=
  ⟨(settings_ini_yaml_fail_loudly.2.2 sampleEnv (some "k") sampleSettings rfl).1,
   (settings_ini_yaml_fail_loudly.2.2 sampleEnv (some "k") sampleSettings rfl).2.2.2⟩

/-- C8: whenever the set command reaches save_and_commit, the commit
message it passes is the generated one naming the edited key followed by
"updated at" and the current time:
"PrintNannySettings.<key> updated at <now>". -/
theorem settings_set_commit_message_form :
    ∀ (env : CliEnv) (key value : String),
      (SettingsCommand.handle env (.set key value)).2.2 = [] ∨
      ∃ content,
        (SettingsCommand.handle env (.set key value)).2.2 =
          [(content,
            some ("PrintNannySettings." ++ key ++ " updated at " ++ env.now))] := by
  intro env key value
  unfold SettingsCommand.handle
  cases env.settings_new with
  | error e => exact .inl rfl
  | ok cfg =>
    dsimp only
    cases env.figment with
    | error e => exact .inl rfl
    | ok fig =>
      dsimp only
      cases env.extract (env.merge_serialized fig key value) with
      | error e => exact .inl rfl
      | ok cfg2 =>
        dsimp only
        cases env.to_toml_string cfg2 with
        | error e => exact .inl rfl
        | ok content =>
          dsimp only
          cases env.save_and_commit content
              (some ("PrintNannySettings." ++ key ++ " updated at " ++ env.now)) with
          | ok u => exact .inr ⟨content, rfl⟩
          | error e => exact .inr ⟨content, rfl⟩

end PrintNanny
